/-
Verification of the CORD-19 metadata pipeline (batch report `Week8.py` and
interactive explorer `app.py`) against its natural-language specification.

The development shallowly embeds the pipeline:
  * rows of the sample dataframe become Lean structures / association lists
    (`none` models a missing value / NaN cell);
  * the pandas column operations of the two cleaning code paths become pure
    functions over those rows;
  * the external library collaborators (`pd.to_datetime(_, errors="coerce")`,
    `Series.value_counts`, `WordCloud.generate`, CSV writing) are modelled as
    executable Lean functions whose doc comments record the library behaviour
    they stand for;
  * fallible steps (a `KeyError` on a missing column, a `ValueError` raised by
    the word-cloud library) are modelled with `Option` / `Except`.
-/
import Mathlib

namespace Cord19

/-! ## Text utilities -/

/-- Whitespace characters recognised by Python `str.split()` (no argument). -/
def isWs (c : Char) : Bool :=
  c = ' ' || c = '\t' || c = '\n' || c = '\r'

/-- Splitting a character list on a whitespace predicate, accumulating the
current (reversed) token; empty tokens are discarded, as Python `str.split()`
does. -/
def splitWsAux : List Char → List Char → List (List Char)
  | [], acc => if acc.isEmpty then [] else [acc.reverse]
  | c :: cs, acc =>
    if isWs c then
      if acc.isEmpty then splitWsAux cs [] else acc.reverse :: splitWsAux cs []
    else splitWsAux cs (c :: acc)

/-- Python `s.split()`: split on runs of whitespace, discarding empty tokens. -/
def pySplit (s : String) : List String :=
  (splitWsAux s.data []).map (fun cs => String.mk cs)

/-- The abstract word count `len(str(x).split())` of `Week8.py` line 79 and
`app.py` line 40. -/
def word_count (s : String) : Nat :=
  (pySplit s).length

/-- Splitting a character list on a separator character, keeping empty
pieces. -/
def splitSepAux (sep : Char) : List Char → List Char → List (List Char)
  | [], acc => [acc.reverse]
  | c :: cs, acc =>
    if c = sep then acc.reverse :: splitSepAux sep cs []
    else splitSepAux sep cs (c :: acc)

/-- Split a string at every occurrence of a separator character. -/
def splitSep (s : String) (sep : Char) : List String :=
  (splitSepAux sep s.data []).map (fun cs => String.mk cs)

/-- Concatenation with single spaces, Python `" ".join(strings)`. -/
def joinSpace : List String → String
  | [] => ""
  | [s] => s
  | s :: rest => s ++ " " ++ joinSpace rest

/-- Character-wise lower-casing (`str.lower()`). -/
def strToLower (s : String) : String :=
  String.mk (s.data.map Char.toLower)

/-- Python truthiness of `s.strip()`: the string has a non-whitespace
character. -/
def strippedNonempty (s : String) : Bool :=
  s.data.any (fun c => ¬ isWs c)

/-- The first `k` characters of a string. -/
def strTake (s : String) (k : Nat) : String :=
  String.mk (s.data.take k)

/-! ## Date parsing

`pd.to_datetime(_, errors="coerce")` is an external library collaborator.  We
model it for ISO-shaped inputs: `YYYY`, `YYYY-MM` and `YYYY-MM-DD` strings made
of digits parse to a date whose year is the leading four-digit group; anything
else coerces to null (`NaT`), never raising. -/

/-- A parsed timestamp; only the calendar year is consumed downstream. -/
structure PDate where
  year : Int
  month : Nat
  day : Nat
deriving Repr, DecidableEq

def allDigits (s : String) : Bool :=
  s.data.length > 0 && s.data.all (fun c => c.isDigit)

/-- Numeric value of a digit string. -/
def digitsVal (s : String) : Nat :=
  s.data.foldl (fun n c => 10 * n + (c.toNat - 48)) 0

/-- Model of `pd.to_datetime(s, errors="coerce")` on a single cell: tolerant
parse, unparsable input becomes null. -/
def parseDate (s : String) : Option PDate :=
  match splitSep s '-' with
  | [y] =>
    if allDigits y && y.data.length = 4 then some ⟨digitsVal y, 1, 1⟩ else none
  | [y, m] =>
    if allDigits y && y.data.length = 4 && allDigits m && m.data.length ≤ 2 then
      some ⟨digitsVal y, digitsVal m, 1⟩
    else none
  | [y, m, d] =>
    if allDigits y && y.data.length = 4 && allDigits m && m.data.length ≤ 2 &&
        allDigits d && d.data.length ≤ 2 then
      some ⟨digitsVal y, digitsVal m, digitsVal d⟩
    else none
  | _ => none

/-! ## Records

A raw record carries the semantically relevant cells of one sample row
(`none` = NaN).  A clean record is the canonical shape produced by the
cleaning steps of both entry points. -/

structure RawRec where
  title : Option String
  abstract : Option String
  publish_time : Option String
  journal : Option String
  source_x : Option String
deriving Repr, DecidableEq

structure CleanRec where
  title : String
  abstract : String
  abstract_word_count : Nat
  publish_time : Option PDate
  year : Option Int
  journal : Option String
  source_x : Option String
deriving Repr, DecidableEq

/-- Per-record cleaning shared by `Week8.py` lines 68-79 and `app.py` lines
29-40: fill missing title/abstract with the sentinel strings, parse
`publish_time` (when the column is present at all — `app.py` line 33 guards on
it and otherwise sets `year` to null), derive `year` and the abstract word
count.  `journal` and `source_x` pass through untouched. -/
def cleanRecord (hasPublishTime : Bool) (r : RawRec) : CleanRec :=
  let title := r.title.getD "No title available"
  let abstract := r.abstract.getD "No abstract available"
  let pt := if hasPublishTime then r.publish_time.bind parseDate else none
  { title := title
    abstract := abstract
    abstract_word_count := word_count abstract
    publish_time := pt
    year := pt.map (fun d => d.year)
    journal := r.journal
    source_x := r.source_x }

/-- The batch cleaner of `Week8.py` lines 65-79 (the `publish_time` column is
indexed unconditionally there). -/
def clean (rows : List RawRec) : List CleanRec :=
  rows.map (cleanRecord true)

/-- A loaded sample frame: its rows plus whether the `publish_time` column is
present (`app.py` line 33 branches on this at frame level). -/
structure RawFrame where
  hasPublishTime : Bool
  rows : List RawRec
deriving Repr

/-- The `load_data` cleaner of `app.py` lines 20-42 (interactive pipeline). -/
def load_data (f : RawFrame) : List CleanRec :=
  f.rows.map (cleanRecord f.hasPublishTime)

/-! ## Filter Engine (`app.py` lines 83-98) -/

structure FilterSpec where
  year_min : Int
  year_max : Int
  journal_set : List String
deriving Repr, DecidableEq

/-- Model of `Series.between(lo, hi, inclusive="both")` on the `year`
column: a NaN year compares false on both sides, so a null year never
passes. -/
def yearBetween (y : Option Int) (lo hi : Int) : Bool :=
  match y with
  | none => false
  | some v => lo ≤ v && v ≤ hi

/-- Model of `Series.isin(sel)` on the `journal` column: NaN is a member of
no list. -/
def journalIsin (j : Option String) (sel : List String) : Bool :=
  match j with
  | none => false
  | some v => sel.contains v

/-- The Filter Engine `df_filtered` of `app.py` lines 91-98: year-range mask
first, then — only when the user selected some journals (Python truthiness
of the list) — the journal membership mask. -/
def df_filtered (recs : List CleanRec) (spec : FilterSpec) : List CleanRec :=
  let step1 := recs.filter (fun r => yearBetween r.year spec.year_min spec.year_max)
  if spec.journal_set.isEmpty then step1
  else step1.filter (fun r => journalIsin r.journal spec.journal_set)

/-- The inclusion rule exactly as the specification words it: year non-null
and within the range, and journal set empty or journal a member. -/
def specPass (spec : FilterSpec) (r : CleanRec) : Bool :=
  yearBetween r.year spec.year_min spec.year_max &&
    (spec.journal_set.isEmpty || journalIsin r.journal spec.journal_set)

/-! ## Column-level row model

For claims about which columns exist on a record we model a dataframe row as
an association list from column name to cell (`none` = NaN).  A key absent
from the list models a column absent from the frame. -/

abbrev Row : Type := List (String × Option String)

def getCol (r : Row) (c : String) : Option (Option String) :=
  List.lookup c r

/-- Column assignment `df[c] = v` (applied row-wise): the column `c` now holds
`v`; every other column keeps its value. -/
def setCol (r : Row) (c : String) (v : Option String) : Row :=
  (c, v) :: List.filter (fun kv => !(kv.1 == c)) r

/-- The fixed sparse/low-value columns dropped by `Week8.py` lines 63-64. -/
def drop_cols : List String :=
  ["sha", "license", "pmcid", "pubmed_id", "arxiv_id", "who_covidence_id",
   "has_full_text"]

/-- Row-wise `df.drop(columns=drop_cols, errors="ignore")`: removing a
column that is absent is not an error (plain filter, total). -/
def dropRow (r : Row) : Row :=
  List.filter (fun kv => !(drop_cols.contains kv.1)) r

/-- The batch cleaning steps of `Week8.py` lines 65-79 on one row at column
granularity: drop the sparse columns, fill `abstract` and `title` sentinels,
coerce `publish_time`, derive `year` and `abstract_word_count`.  Indexing a
column that does not exist (`df["abstract"]` with no such column) is a
`KeyError`, modelled by `none`. -/
def week8CleanRow (r : Row) : Option Row := do
  let r1 := dropRow r
  let ab ← getCol r1 "abstract"
  let r2 := setCol r1 "abstract" (some (ab.getD "No abstract available"))
  let ti ← getCol r2 "title"
  let r3 := setCol r2 "title" (some (ti.getD "No title available"))
  let pt ← getCol r3 "publish_time"
  let ptParsed := pt.bind parseDate
  let r4 := setCol r3 "publish_time" (ptParsed.map (fun d => toString d.year))
  let r5 := setCol r4 "year" (ptParsed.map (fun d => toString d.year))
  let ab2 ← getCol r5 "abstract"
  let r6 := setCol r5 "abstract_word_count"
      (some (toString (word_count (ab2.getD "nan"))))
  pure r6

/-- The interactive cleaning steps of `app.py` lines 28-42 on one row at
column granularity: fill `title` and `abstract` sentinels, conditionally
parse `publish_time` into `year` (null year when the column is absent), add
`abstract_word_count`.  No column is ever dropped here. -/
def appLoadRow (r : Row) : Option Row := do
  let ti ← getCol r "title"
  let r1 := setCol r "title" (some (ti.getD "No title available"))
  let ab ← getCol r1 "abstract"
  let r2 := setCol r1 "abstract" (some (ab.getD "No abstract available"))
  let r3 :=
    match getCol r2 "publish_time" with
    | some pt =>
      let ptParsed := pt.bind parseDate
      setCol (setCol r2 "publish_time" (ptParsed.map (fun d => toString d.year)))
        "year" (ptParsed.map (fun d => toString d.year))
    | none => setCol r2 "year" none
  let ab2 ← getCol r3 "abstract"
  let r4 := setCol r3 "abstract_word_count"
      (some (toString (word_count (ab2.getD "nan"))))
  pure r4

/-! ## Sampler write model (`Week8.py` lines 10-20)

The sampler writes the sample with `sample_df.to_csv("metadata_sample.csv")`
directly at the final path: the file is opened for writing (truncating any
existing content) and the new bytes are then written in order.  There is no
temporary path and no rename in the source.  `samplerWrite old content fail`
is the resulting file content: `fail = some k` models an interruption after
`k` characters were written. -/
def samplerWrite (old : Option String) (content : String)
    (fail : Option Nat) : Option String :=
  match old, fail with
  | _, none => some content
  | _, some k => some (strTake content k)

/-! ## Aggregator

`Series.value_counts()` is a library collaborator: it excludes NaN, tallies
each distinct value (first-encounter key order) and sorts by count in
descending order; ties keep the first-encounter order (stable sort model).
We embed it as: distinct non-null values in first-encounter order, paired
with their counts, then a stable insertion sort on descending count. -/

/-- The non-null journal cells, in input order (`df["journal"].dropna()`). -/
def journalsOf (recs : List CleanRec) : List String :=
  recs.filterMap (fun r => r.journal)

/-- Distinct values in order of first encounter, with a structural fuel
argument (`fuel ≥ length` always holds on the calls made). -/
def firstUniqF {α : Type} [DecidableEq α] : Nat → List α → List α
  | _, [] => []
  | 0, _ :: _ => []
  | n + 1, j :: js => j :: firstUniqF n (js.filter (fun x => x ≠ j))

/-- Distinct values in order of first encounter. -/
def firstUniq {α : Type} [DecidableEq α] (l : List α) : List α :=
  firstUniqF l.length l

/-- Each distinct non-null journal with its number of occurrences, in
first-encounter order (the hash-tally phase of `value_counts`). -/
def journalCounts (recs : List CleanRec) : List (String × Nat) :=
  (firstUniq (journalsOf recs)).map (fun j => (j, (journalsOf recs).count j))

/-- Descending-count comparison used to sort the tallies. -/
def countGe (p q : String × Nat) : Prop := q.2 ≤ p.2

instance : DecidableRel countGe := fun p q => Nat.decLe q.2 p.2

instance : IsTotal (String × Nat) countGe :=
  ⟨fun p q => Nat.le_total q.2 p.2⟩

instance : IsTrans (String × Nat) countGe :=
  ⟨fun _ _ _ h1 h2 => Nat.le_trans h2 h1⟩

/-- Model of `df["journal"].value_counts()`: tallies sorted by descending
count, first-encounter order on ties (stable sort). -/
def sortedJournalCounts (recs : List CleanRec) : List (String × Nat) :=
  List.insertionSort countGe (journalCounts recs)

/-- The aggregation `df["journal"].value_counts().head(n)` (`Week8.py` line
110 with `n = 10`, `app.py` line 125 with `n = top_n`). -/
def top_journals (recs : List CleanRec) (n : Nat) : List (String × Nat) :=
  (sortedJournalCounts recs).take n

/-- The non-null years, in input order. -/
def yearsOf (recs : List CleanRec) : List Int :=
  recs.filterMap (fun r => r.year)

/-- Ascending-year comparison for `sort_index()`. -/
def yearLe (p q : Int × Nat) : Prop := p.1 ≤ q.1

instance : DecidableRel yearLe := fun p q => Int.decLe p.1 q.1

/-- The aggregation `df["year"].value_counts().sort_index()` (`Week8.py`
line 96, `app.py` line 111): count per non-null year, ascending year
order. -/
def year_counts (recs : List CleanRec) : List (Int × Nat) :=
  List.insertionSort yearLe
    ((firstUniq (yearsOf recs)).map (fun y => (y, (yearsOf recs).count y)))

/-- Concatenation of the non-null titles with spaces, lower-cased —
`" ".join(titles).lower()` of `Week8.py` line 124 and `app.py` line 138. -/
def allTitles (recs : List CleanRec) : String :=
  strToLower (joinSpace (recs.map (fun r => r.title)))

/-- Title word frequencies of `Week8.py` lines 125-126: tokens longer than 3
characters, the 20 most common (ties in first-encounter order). -/
def word_frequencies (recs : List CleanRec) : List (String × Nat) :=
  let words := (pySplit (allTitles recs)).filter (fun w => w.length > 3)
  (List.insertionSort (fun p q : String × Nat => q.2 ≤ p.2)
    ((firstUniq words).map (fun w => (w, words.count w)))).take 20

/-- The non-null source cells, in input order (`Week8.py` line 140 tallies
them). -/
def sourcesOf (recs : List CleanRec) : List String :=
  recs.filterMap (fun r => r.source_x)

/-! ## Word cloud collaborator

`WordCloud.generate(text)` runs `process_text`: it collects the words
matching the default pattern (a word character followed by one or more word
characters or apostrophes), trims a trailing possessive apostrophe-s, drops
digit-only words (`include_numbers=False`), and drops stopwords
(case-insensitively; the callers have already lower-cased the text).  If no
word survives, `generate_from_frequencies` raises `ValueError`
(`We need at least 1 word to plot a word cloud, got 0.`).  Modelled with
`Except`: the error value is the raised exception.  The model is exact on
ASCII text (`Char.isAlphanum` stands for the word-character class). -/

/-- The apostrophe character (as the library's word pattern allows it inside
a word). -/
def apoChar : Char := Char.ofNat 39

/-- A word character of the tokenisation pattern: alphanumeric or
underscore. -/
def isWordChar (c : Char) : Bool :=
  c.isAlphanum || c = '_'

/-- Maximal runs of word/apostrophe characters of a text, in order (the
material the word pattern can match in). -/
def wcRuns : List Char → List Char → List (List Char)
  | [], acc => if acc.isEmpty then [] else [acc.reverse]
  | c :: cs, acc =>
    if isWordChar c || c = apoChar then wcRuns cs (c :: acc)
    else if acc.isEmpty then wcRuns cs [] else acc.reverse :: wcRuns cs []

/-- The word the pattern matches inside one run: a match must start at the
first word character (leading apostrophes cannot start a match) and then
greedily takes the rest of the run, needing at least two characters in
total. -/
def runToken (run : List Char) : Option (List Char) :=
  let t := run.dropWhile (fun c => c = apoChar)
  if t.length ≥ 2 then some t else none

/-- Trimming of a trailing possessive apostrophe-s, as `process_text` does
before the digit and stopword filters. -/
def trimApoS (t : List Char) : List Char :=
  match t.reverse with
  | c1 :: c2 :: rest => if c1 = 's' && c2 = apoChar then rest.reverse else t
  | _ => t

/-- The stopword list shipped with the wordcloud library (its `stopwords`
file); `\x27` is the apostrophe. -/
def wcStopwords : List String :=
  ["a", "about", "above", "after", "again", "against", "all", "also", "am",
   "an", "and", "any", "are", "aren\x27t", "as", "at", "be", "because",
   "been", "before", "being", "below", "between", "both", "but", "by",
   "can", "can\x27t", "cannot", "com", "could", "couldn\x27t", "did",
   "didn\x27t", "do", "does", "doesn\x27t", "doing", "don\x27t", "down",
   "during", "each", "else", "ever", "few", "for", "from", "further",
   "get", "had", "hadn\x27t", "has", "hasn\x27t", "have", "haven\x27t",
   "having", "he", "he\x27d", "he\x27ll", "he\x27s", "hence", "her",
   "here", "here\x27s", "hers", "herself", "him", "himself", "his", "how",
   "how\x27s", "however", "http", "i", "i\x27d", "i\x27ll", "i\x27m",
   "i\x27ve", "if", "in", "into", "is", "isn\x27t", "it", "it\x27s",
   "its", "itself", "just", "k", "let\x27s", "like", "me", "more", "most",
   "mustn\x27t", "my", "myself", "no", "nor", "not", "of", "off", "on",
   "once", "only", "or", "other", "otherwise", "ought", "our", "ours",
   "ourselves", "out", "over", "own", "r", "same", "shall", "shan\x27t",
   "she", "she\x27d", "she\x27ll", "she\x27s", "should", "shouldn\x27t",
   "since", "so", "some", "such", "than", "that", "that\x27s", "the",
   "their", "theirs", "them", "themselves", "then", "there", "there\x27s",
   "therefore", "these", "they", "they\x27d", "they\x27ll", "they\x27re",
   "they\x27ve", "this", "those", "through", "to", "too", "under",
   "until", "up", "very", "was", "wasn\x27t", "we", "we\x27d", "we\x27ll",
   "we\x27re", "we\x27ve", "were", "weren\x27t", "what", "what\x27s",
   "when", "when\x27s", "where", "where\x27s", "which", "while", "who",
   "who\x27s", "whom", "why", "why\x27s", "with", "won\x27t", "would",
   "wouldn\x27t", "www", "you", "you\x27d", "you\x27ll", "you\x27re",
   "you\x27ve", "your", "yours", "yourself", "yourselves"]

/-- The words `process_text` retains from a text: pattern matches, trimmed
of a possessive apostrophe-s, with digit-only words and stopwords removed.
`WordCloud.generate` raises exactly when this list is empty. -/
def wcTokens (s : String) : List String :=
  let matches0 := (wcRuns s.data []).filterMap runToken
  let trimmed := matches0.map trimApoS
  let noDigits := trimmed.filter (fun t => !(t.length > 0 && t.all (fun c => c.isDigit)))
  let noStop := noDigits.filter (fun t => !(wcStopwords.contains (String.mk t)))
  noStop.map (fun t => String.mk t)

/-- Model of `WordCloud(...).generate(text)`. -/
def wcGenerate (s : String) : Except String Unit :=
  if (wcTokens s).isEmpty then
    Except.error "ValueError: We need at least 1 word to plot a word cloud, got 0."
  else Except.ok ()

/-! ## Interactive rendering steps (`app.py` lines 108-157)

Each visualisation either draws a chart from prepared series or shows an
`st.info` placeholder; the guards are translated from the source.  In the
typed model every loaded frame carries the `year`, `journal`, `title` and
`source_x` fields, so the `in df_filtered.columns` half of each guard holds
and the guard reduces to the `notna().any()` half. -/

inductive Render where
  | chart : Render
  | placeholder : String → Render
deriving Repr, DecidableEq

/-- Publications-by-year step (`app.py` lines 110-120). -/
def appVizYear (view : List CleanRec) : Render :=
  if view.any (fun r => r.year.isSome) then Render.chart
  else Render.placeholder "No valid year values available for plotting."

/-- Top-journals step (`app.py` lines 124-134). -/
def appVizJournals (view : List CleanRec) : Render :=
  if view.any (fun r => r.journal.isSome) then Render.chart
  else Render.placeholder "No journal information available to display."

/-- Word-cloud step (`app.py` lines 138-144): guarded on non-empty stripped
title text, but the library call inside the guard may still raise. -/
def appVizWordcloud (view : List CleanRec) : Except String Render :=
  if strippedNonempty (allTitles view) then
    (wcGenerate (allTitles view)).map (fun _ => Render.chart)
  else Except.ok (Render.placeholder "No title text available to generate a word cloud.")

/-- Source-distribution step (`app.py` lines 148-157). -/
def appVizSources (view : List CleanRec) : Render :=
  if view.any (fun r => r.source_x.isSome) then Render.chart
  else Render.placeholder "No source_x column available in this dataset sample."

/-! ## Batch report run (`Week8.py` lines 93-152)

The batch analysis phase is a straight-line sequence: year trend plot, top
journals plot, word cloud, source pie.  It has no guards: the word-cloud
library raises on empty text, and `df["source_x"]` (line 140) and
`df["journal"]` (line 110) raise `KeyError` when the sample lacks those
columns.  `batchRun` returns the image artifacts written before the first
failure together with the outcome. -/

def batchRun (cols : List String) (recs : List CleanRec) :
    List String × Except String Unit :=
  let a1 := ["plots/publications_by_year.png"]
  if cols.contains "journal" then
    let a2 := a1 ++ ["plots/top_journals.png"]
    match wcGenerate (allTitles recs) with
    | Except.error e => (a2, Except.error e)
    | Except.ok _ =>
      let a3 := a2 ++ ["plots/wordcloud_titles.png"]
      if cols.contains "source_x" then
        (a3 ++ ["plots/source_distribution.png"], Except.ok ())
      else (a3, Except.error "KeyError: source_x")
  else (a1, Except.error "KeyError: journal")

/-! ## Interactive session state (`app.py` lines 71-98)

The canonical record set is loaded once; each interaction builds
`df_filtered` afresh from it (`df.copy()` then boolean-mask selection, both
of which leave `df` untouched). -/

structure AppState where
  canonical : List CleanRec
  view : List CleanRec
deriving Repr, DecidableEq

/-- One interaction: recompute the view for a new spec; the canonical set is
only read. -/
def applySpec (s : AppState) (spec : FilterSpec) : AppState :=
  { canonical := s.canonical, view := df_filtered s.canonical spec }

/-- A whole session: a sequence of filter interactions. -/
def applySpecs (s : AppState) : List FilterSpec → AppState
  | [] => s
  | sp :: sps => applySpecs (applySpec s sp) sps

/-! # Helper lemmas -/

theorem yearBetween_ne_none {y : Option Int} {lo hi : Int}
    (h : yearBetween y lo hi = true) : y ≠ none := by
  cases y with
  | none => simp [yearBetween] at h
  | some v => simp

theorem df_filtered_eq_filter (recs : List CleanRec) (spec : FilterSpec) :
    df_filtered recs spec = recs.filter (specPass spec) := by
  simp only [df_filtered]
  by_cases h : spec.journal_set.isEmpty
  · rw [if_pos h]
    refine List.filter_congr ?_
    intro r _
    simp [specPass, h]
  · rw [if_neg h, List.filter_filter]
    have h' : spec.journal_set.isEmpty = false := by
      simpa using h
    refine List.filter_congr ?_
    intro r _
    cases hy : yearBetween r.year spec.year_min spec.year_max <;>
      cases hj : journalIsin r.journal spec.journal_set <;>
        simp [specPass, hy, hj, h']

theorem applySpecs_canonical (specs : List FilterSpec) :
    ∀ s : AppState, (applySpecs s specs).canonical = s.canonical := by
  induction specs with
  | nil => intro s; rfl
  | cons sp sps ih =>
    intro s
    rw [applySpecs, ih]
    rfl

theorem lookup_filter_ne (c c2 : String) (h : c2 ≠ c) (r : Row) :
    List.lookup c2 (List.filter (fun kv => !(kv.1 == c)) r) = List.lookup c2 r := by
  induction r with
  | nil => rfl
  | cons kv t ih =>
    obtain ⟨a, b⟩ := kv
    rw [List.filter_cons]
    by_cases hac : a = c
    · subst hac
      have h2 : (c2 == a) = false := by simp [h]
      simp [List.lookup_cons, h2, ih]
    · have h3 : (!(a == c)) = true := by simp [hac]
      cases h4 : c2 == a with
      | true => simp [List.lookup_cons, h3, h4]
      | false => simp [List.lookup_cons, h3, h4, ih]

theorem getCol_setCol (r : Row) (c c2 : String) (v : Option String) :
    getCol (setCol r c v) c2 = if c2 = c then some v else getCol r c2 := by
  by_cases h : c2 = c
  · subst h
    simp [getCol, setCol, List.lookup_cons]
  · rw [if_neg h]
    show List.lookup c2 ((c, v) :: List.filter (fun kv => !(kv.1 == c)) r) = getCol r c2
    rw [List.lookup_cons]
    have hb : (c2 == c) = false := by
      simp [h]
    simp only [hb]
    exact lookup_filter_ne c c2 h r

theorem getCol_dropRow (r : Row) (c : String) (hc : c ∈ drop_cols) :
    getCol (dropRow r) c = none := by
  unfold dropRow getCol
  induction r with
  | nil => rfl
  | cons kv t ih =>
    obtain ⟨a, b⟩ := kv
    simp only [List.filter_cons]
    cases ha : drop_cols.contains a with
    | true =>
      simp only [ha, Bool.not_true]
      rw [if_neg (by decide)]
      exact ih
    | false =>
      simp only [ha, Bool.not_false, if_true]
      rw [List.lookup_cons]
      have hne : c ≠ a := by
        intro hh
        subst hh
        have hmem : drop_cols.contains c = true := List.elem_iff.mpr hc
        rw [hmem] at ha
        cases ha
      have hca : (c == a) = false := by simp [hne]
      simp only [hca]
      exact ih

theorem mem_firstUniqF {α : Type} [DecidableEq α] :
    ∀ (n : Nat) (l : List α), ∀ x ∈ firstUniqF n l, x ∈ l := by
  intro n
  induction n with
  | zero =>
    intro l x hx
    cases l with
    | nil => cases hx
    | cons j js => cases hx
  | succ n ih =>
    intro l x hx
    cases l with
    | nil => cases hx
    | cons j js =>
      rcases List.mem_cons.mp hx with rfl | hx
      · exact List.mem_cons_self _ _
      · exact List.mem_cons_of_mem j (List.mem_of_mem_filter (ih _ x hx))

theorem firstUniqF_complete {α : Type} [DecidableEq α] :
    ∀ (n : Nat) (l : List α), l.length ≤ n → ∀ x ∈ l, x ∈ firstUniqF n l := by
  intro n
  induction n with
  | zero =>
    intro l hl x hx
    cases l with
    | nil => cases hx
    | cons j js => simp at hl
  | succ n ih =>
    intro l hl x hx
    cases l with
    | nil => cases hx
    | cons j js =>
      by_cases hxj : x = j
      · subst hxj
        exact List.mem_cons_self x _
      · rcases List.mem_cons.mp hx with rfl | hx2
        · exact absurd rfl hxj
        · refine List.mem_cons_of_mem j (ih _ ?_ x ?_)
          · exact Nat.le_trans (List.length_filter_le _ js) (Nat.le_of_succ_le_succ hl)
          · exact List.mem_filter.mpr ⟨hx2, by simp [hxj]⟩

theorem indexOf_lt_of_filter_lt {α : Type} [DecidableEq α] (p : α → Bool) :
    ∀ (l : List α) (a b : α), a ∈ l.filter p → b ∈ l.filter p →
      (l.filter p).indexOf a < (l.filter p).indexOf b →
      l.indexOf a < l.indexOf b := by
  intro l
  induction l with
  | nil => intro a b ha _ _; cases ha
  | cons c t ih =>
    intro a b ha hb hlt
    rw [List.filter_cons] at ha hb hlt
    cases hp : p c with
    | true =>
      rw [hp, if_pos rfl] at ha hb hlt
      by_cases hac : a = c
      · subst hac
        have hba : b ≠ a := by
          intro hh
          subst hh
          exact Nat.lt_irrefl _ hlt
        rw [List.indexOf_cons_self]
        rw [List.indexOf_cons_ne _ (fun hh => hba hh.symm)]
        exact Nat.succ_pos _
      · rw [List.indexOf_cons_ne _ (fun hh => hac hh.symm)] at hlt
        by_cases hbc : b = c
        · subst hbc
          rw [List.indexOf_cons_self] at hlt
          exact absurd hlt (Nat.not_lt_zero _)
        · rw [List.indexOf_cons_ne _ (fun hh => hbc hh.symm)] at hlt
          have ha2 : a ∈ t.filter p := by
            rcases List.mem_cons.mp ha with rfl | h2
            · exact absurd rfl hac
            · exact h2
          have hb2 : b ∈ t.filter p := by
            rcases List.mem_cons.mp hb with rfl | h2
            · exact absurd rfl hbc
            · exact h2
          have := ih a b ha2 hb2 (Nat.lt_of_succ_lt_succ hlt)
          rw [List.indexOf_cons_ne _ (fun hh => hac hh.symm),
            List.indexOf_cons_ne _ (fun hh => hbc hh.symm)]
          exact Nat.succ_lt_succ this
    | false =>
      rw [hp] at ha hb hlt
      rw [if_neg (by simp)] at ha hb hlt
      have hac : a ≠ c := by
        intro hh
        subst hh
        rw [List.of_mem_filter ha] at hp
        cases hp
      have hbc : b ≠ c := by
        intro hh
        subst hh
        rw [List.of_mem_filter hb] at hp
        cases hp
      rw [List.indexOf_cons_ne _ (fun hh => hac hh.symm),
        List.indexOf_cons_ne _ (fun hh => hbc hh.symm)]
      exact Nat.succ_lt_succ (ih a b ha hb hlt)

theorem pairwise_indexOf_firstUniqF {α : Type} [DecidableEq α] :
    ∀ (n : Nat) (l : List α),
      (firstUniqF n l).Pairwise (fun a b => l.indexOf a < l.indexOf b) := by
  intro n
  induction n with
  | zero =>
    intro l
    cases l with
    | nil => exact List.Pairwise.nil
    | cons j js => exact List.Pairwise.nil
  | succ n ih =>
    intro l
    cases l with
    | nil => exact List.Pairwise.nil
    | cons j js =>
      refine List.pairwise_cons.mpr ⟨?_, ?_⟩
      · intro y hy
        have hyf : y ∈ js.filter (fun x => x ≠ j) := mem_firstUniqF n _ y hy
        have hyj : y ≠ j := by
          have := List.of_mem_filter hyf
          simpa using this
        rw [List.indexOf_cons_self, List.indexOf_cons_ne _ (fun hh => hyj hh.symm)]
        exact Nat.succ_pos _
      · refine List.Pairwise.imp_of_mem ?_ (ih (js.filter (fun x => x ≠ j)))
        intro a b ha hb hlt
        have haf : a ∈ js.filter (fun x => x ≠ j) := mem_firstUniqF n _ a ha
        have hbf : b ∈ js.filter (fun x => x ≠ j) := mem_firstUniqF n _ b hb
        have haj : a ≠ j := by
          have := List.of_mem_filter haf
          simpa using this
        have hbj : b ≠ j := by
          have := List.of_mem_filter hbf
          simpa using this
        rw [List.indexOf_cons_ne _ (fun hh => haj hh.symm),
          List.indexOf_cons_ne _ (fun hh => hbj hh.symm)]
        exact Nat.succ_lt_succ (indexOf_lt_of_filter_lt _ js a b haf hbf hlt)

theorem pairwise_orderedInsert_stable {α : Type} (r s : α → α → Prop)
    [DecidableRel r] [IsTotal α r] [IsTrans α r] (x : α) :
    ∀ L : List α, L.Pairwise (fun a b => r a b ∧ (r b a → s a b)) →
      (∀ y ∈ L, s x y) →
      (List.orderedInsert r x L).Pairwise (fun a b => r a b ∧ (r b a → s a b)) := by
  intro L
  induction L with
  | nil =>
    intro _ _
    simp
  | cons b t ih =>
    intro hP hs
    rw [List.orderedInsert]
    obtain ⟨hbt, hPt⟩ := List.pairwise_cons.mp hP
    by_cases hrxb : r x b
    · rw [if_pos hrxb]
      refine List.pairwise_cons.mpr ⟨?_, hP⟩
      intro z hz
      refine ⟨?_, fun _ => hs z hz⟩
      rcases List.mem_cons.mp hz with rfl | hzt
      · exact hrxb
      · exact IsTrans.trans x b z hrxb (hbt z hzt).1
    · rw [if_neg hrxb]
      refine List.pairwise_cons.mpr
        ⟨?_, ih hPt (fun y hy => hs y (List.mem_cons_of_mem b hy))⟩
      intro z hz
      rcases (List.mem_orderedInsert r).mp hz with hzx | hzt
      · rw [hzx]
        exact ⟨(IsTotal.total x b).resolve_left hrxb, fun hxb => absurd hxb hrxb⟩
      · exact hbt z hzt

theorem pairwise_insertionSort_stable {α : Type} (r s : α → α → Prop)
    [DecidableRel r] [IsTotal α r] [IsTrans α r] :
    ∀ l : List α, l.Pairwise s →
      (List.insertionSort r l).Pairwise (fun a b => r a b ∧ (r b a → s a b)) := by
  intro l
  induction l with
  | nil =>
    intro _
    exact List.Pairwise.nil
  | cons x xs ih =>
    intro hP
    obtain ⟨hx, hxs⟩ := List.pairwise_cons.mp hP
    rw [List.insertionSort]
    refine pairwise_orderedInsert_stable r s x _ (ih hxs) ?_
    intro y hy
    exact hx y ((List.mem_insertionSort r).mp hy)

theorem pairwise_idx_journalCounts (recs : List CleanRec) :
    (journalCounts recs).Pairwise (fun p q =>
      (journalsOf recs).indexOf p.1 < (journalsOf recs).indexOf q.1) := by
  unfold journalCounts
  rw [List.pairwise_map]
  exact pairwise_indexOf_firstUniqF _ _

/-! # Claim theorems -/

/-- Claim C1: the Filter Engine keeps a record exactly when its year is non-null
and within `[year_min, year_max]` and the journal set is empty or contains
the record's journal; the result is a filter of the input (so a record with
null year is never kept and the surviving records keep their relative
order). -/
theorem filter_engine_inclusion (recs : List CleanRec) (spec : FilterSpec) :
    df_filtered recs spec = recs.filter (specPass spec) ∧
    (df_filtered recs spec).Sublist recs ∧
    (∀ r, r ∈ df_filtered recs spec ↔ r ∈ recs ∧ specPass spec r = true) ∧
    ∀ r ∈ df_filtered recs spec, r.year ≠ none := by
  refine ⟨df_filtered_eq_filter recs spec, ?_, ?_, ?_⟩
  · rw [df_filtered_eq_filter]
    exact List.filter_sublist recs
  · intro r
    rw [df_filtered_eq_filter]
    exact List.mem_filter
  · intro r hr
    rw [df_filtered_eq_filter] at hr
    have hp := List.of_mem_filter hr
    have hy : yearBetween r.year spec.year_min spec.year_max = true := by
      simpa [specPass, Bool.and_eq_true] using And.left (by simpa [specPass] using hp)
    exact yearBetween_ne_none hy

/-- Concrete record with an in-range year, for the C1 witness. -/
def c1recA : CleanRec :=
  { title := "t1", abstract := "a", abstract_word_count := 1,
    publish_time := none, year := some 2020, journal := some "A", source_x := none }

/-- Concrete record with a null year, for the C1 witness. -/
def c1recB : CleanRec :=
  { title := "t2", abstract := "a", abstract_word_count := 1,
    publish_time := none, year := none, journal := some "A", source_x := none }

/-- Claim C1 witness: on a concrete record set and spec, the filter equals
the inclusion-rule filter, which keeps exactly the in-range record (the
null-year record is excluded). -/
theorem filter_engine_inclusion_witness :
    df_filtered [c1recA, c1recB] ⟨2019, 2022, []⟩ =
      List.filter (specPass ⟨2019, 2022, []⟩) [c1recA, c1recB] ∧
    List.filter (specPass ⟨2019, 2022, []⟩) [c1recA, c1recB] = [c1recA] :=
  ⟨(filter_engine_inclusion [c1recA, c1recB] ⟨2019, 2022, []⟩).1, by decide⟩

/-- Claim C2: cleaning never drops a record — both the batch cleaner and the
interactive loader return exactly as many canonical records as raw rows,
including on empty input. -/
theorem clean_preserves_length (rows : List RawRec) (f : RawFrame) :
    (clean rows).length = rows.length ∧
    (load_data f).length = f.rows.length ∧
    clean [] = [] := by
  refine ⟨?_, ?_, rfl⟩
  · simp [clean]
  · simp [load_data]

/-- Claim C3: a raw record with null title, null abstract, unparsable
`publish_time` and journal `J1` cleans (in both pipelines) to the sentinel
title and abstract, word count 3, null `publish_time`, null `year` and
journal `J1`; cleaning is total, so no field-level failure occurs. -/
theorem scenario_degraded_record :
    cleanRecord true ⟨none, none, some "not-a-date", some "J1", none⟩ =
      { title := "No title available", abstract := "No abstract available",
        abstract_word_count := 3, publish_time := none, year := none,
        journal := some "J1", source_x := none } ∧
    clean [⟨none, none, some "not-a-date", some "J1", none⟩] =
      [{ title := "No title available", abstract := "No abstract available",
         abstract_word_count := 3, publish_time := none, year := none,
         journal := some "J1", source_x := none }] ∧
    load_data ⟨true, [⟨none, none, some "not-a-date", some "J1", none⟩]⟩ =
      [{ title := "No title available", abstract := "No abstract available",
         abstract_word_count := 3, publish_time := none, year := none,
         journal := some "J1", source_x := none }] := by
  decide

/-- Claim C4 counterexample: an interrupted sampler write destroys the previously
existing valid sample — the file no longer holds the old content, refuting
the temp-path-and-rename claim. -/
theorem sampler_overwrite_counterexample :
    samplerWrite (some "a,b\n1,2\n") "a,b\n3,4\n" (some 6) ≠ some "a,b\n1,2\n" := by
  decide

/-- Claim C4 amended: the sampler writes directly at the final path, so a write
interrupted after `k` characters leaves the file holding the first `k`
characters of the new content — in particular, whenever that prefix differs
from the old content, the old sample is lost; only a complete write yields
the new sample. -/
theorem sampler_direct_write (old content : String) (k : Nat)
    (h : strTake content k ≠ old) :
    samplerWrite (some old) content (some k) = some (strTake content k) ∧
    samplerWrite (some old) content (some k) ≠ some old ∧
    samplerWrite (some old) content none = some content := by
  refine ⟨rfl, ?_, rfl⟩
  intro hc
  exact h (Option.some.inj hc)

/-- Claim C4 amended witness at a concrete interrupted write. -/
theorem sampler_direct_write_witness :
    strTake "a,b\n3,4\n" 6 ≠ "a,b\n1,2\n" ∧
    samplerWrite (some "a,b\n1,2\n") "a,b\n3,4\n" (some 6) = some (strTake "a,b\n3,4\n" 6) := by
  refine ⟨by decide, ?_⟩
  exact (sampler_direct_write "a,b\n1,2\n" "a,b\n3,4\n" 6 (by decide)).1

/-- A record carrying only a journal, for the C5 aggregation example. -/
def mkJRec (j : String) : CleanRec :=
  { title := "No title available", abstract := "No abstract available",
    abstract_word_count := 3, publish_time := none, year := none,
    journal := some j, source_x := none }

/-- Example record set whose journals are `[A, B, A, C, B, A]`. -/
def c5recs : List CleanRec := ["A", "B", "A", "C", "B", "A"].map mkJRec

/-- Claim C5: `top_journals` returns at most `n` pairs; every returned pair is a
real (non-null) journal of the input with its exact occurrence count; the
pairs are in descending count order with ties broken by first encounter in
input order; before truncation every non-null journal is represented; and on
the `[A, B, A, C, B, A]` example it returns `[(A, 3), (B, 2), (C, 1)]`. -/
theorem top_journals_spec (recs : List CleanRec) (n : Nat) :
    (top_journals recs n).length ≤ n ∧
    (∀ p ∈ top_journals recs n,
      p.2 = (journalsOf recs).count p.1 ∧ p.1 ∈ journalsOf recs) ∧
    (top_journals recs n).Pairwise (fun p q =>
      q.2 ≤ p.2 ∧ (p.2 ≤ q.2 →
        (journalsOf recs).indexOf p.1 < (journalsOf recs).indexOf q.1)) ∧
    (∀ j ∈ journalsOf recs, j ∈ (sortedJournalCounts recs).map Prod.fst) ∧
    top_journals c5recs 3 = [("A", 3), ("B", 2), ("C", 1)] := by
  refine ⟨List.length_take_le n _, ?_, ?_, ?_, by decide⟩
  · intro p hp
    have hp2 : p ∈ sortedJournalCounts recs := List.take_subset n _ hp
    have hp3 : p ∈ journalCounts recs := (List.mem_insertionSort countGe).mp hp2
    unfold journalCounts at hp3
    rcases List.mem_map.mp hp3 with ⟨j, hj, rfl⟩
    exact ⟨rfl, mem_firstUniqF _ _ j hj⟩
  · refine List.Pairwise.sublist (List.take_sublist n _) ?_
    exact pairwise_insertionSort_stable countGe
      (fun p q => (journalsOf recs).indexOf p.1 < (journalsOf recs).indexOf q.1)
      (journalCounts recs) (pairwise_idx_journalCounts recs)
  · intro j hj
    have hj1 : j ∈ firstUniq (journalsOf recs) :=
      firstUniqF_complete _ _ (Nat.le_refl _) j hj
    have hj2 : j ∈ (journalCounts recs).map Prod.fst := by
      unfold journalCounts
      rw [List.map_map]
      simpa using hj1
    exact (((List.perm_insertionSort countGe (journalCounts recs)).map Prod.fst).mem_iff).mpr hj2

/-- Claim C5 witness: the aggregation-stability example, obtained from the
claim theorem at the concrete record set. -/
theorem top_journals_spec_witness :
    top_journals c5recs 3 = [("A", 3), ("B", 2), ("C", 1)] :=
  (top_journals_spec c5recs 3).2.2.2.2

/-- A concrete raw row carrying a sparse identifier column, fed to the
interactive loader. -/
def c6AppRow : Row := [("sha", some "x"), ("title", some "t"), ("abstract", some "a")]

/-- Claim C6 counterexample: the interactive pipeline (`app.py` `load_data`) never
drops the sparse identifier columns — cleaning a row that carries `sha`
succeeds and the cleaned record still holds `sha`, refuting the claim that
the sparse columns are absent after cleaning in both pipelines. -/
theorem interactive_keeps_sparse_column :
    getCol ((appLoadRow c6AppRow).getD []) "sha" = some (some "x") ∧
    (appLoadRow c6AppRow).isSome = true := by
  decide

/-- Claim C6 amended: the batch pipeline (`Week8.py`) drops the fixed sparse
columns — whenever batch cleaning succeeds, none of them remains on the
cleaned row — and a row lacking every sparse column still cleans without
error; the interactive pipeline keeps such columns. -/
theorem batch_drops_sparse_columns (r out : Row) (h : week8CleanRow r = some out) :
    (∀ c ∈ drop_cols, getCol out c = none) ∧
    week8CleanRow [("title", none), ("abstract", none), ("publish_time", none)] ≠ none := by
  refine ⟨?_, by decide⟩
  intro c hc
  unfold week8CleanRow at h
  simp only [bind, Option.bind_eq_some, pure, Option.some.injEq] at h
  obtain ⟨ab, h1, ti, h2, pt, h3, ab2, h4, hout⟩ := h
  subst hout
  simp only [drop_cols, List.mem_cons, List.not_mem_nil, or_false] at hc
  rcases hc with rfl | rfl | rfl | rfl | rfl | rfl | rfl <;>
    simp [getCol_setCol] <;>
      exact getCol_dropRow r _ (by decide)

/-- A concrete raw row with sparse columns for the batch cleaner. -/
def c6BatchRow : Row :=
  [("sha", some "x"), ("license", none), ("title", none), ("abstract", none),
   ("publish_time", some "2020-05-01"), ("journal", some "J")]

/-- The batch-cleaned version of `c6BatchRow`. -/
def c6BatchOut : Row := (week8CleanRow c6BatchRow).getD []

/-- Claim C6 amended witness: on the concrete row, batch cleaning succeeds and the
`sha` column is gone. -/
theorem batch_drops_sparse_columns_witness :
    week8CleanRow c6BatchRow = some c6BatchOut ∧ getCol c6BatchOut "sha" = none :=
  ⟨by decide,
    (batch_drops_sparse_columns c6BatchRow c6BatchOut (by decide)).1 "sha" (by decide)⟩

/-- Claim C7 counterexample: on an empty record set the batch word-cloud step
(`Week8.py` line 130, unguarded) raises, so the batch run does not handle the
empty view, refuting the never-raises claim for the batch report. -/
theorem batch_wordcloud_raises_on_empty :
    wcGenerate (allTitles ([] : List CleanRec)) =
      Except.error "ValueError: We need at least 1 word to plot a word cloud, got 0." ∧
    (batchRun ["title", "abstract", "publish_time", "journal", "source_x"]
        ([] : List CleanRec)).2 =
      Except.error "ValueError: We need at least 1 word to plot a word cloud, got 0." :=
  ⟨rfl, rfl⟩

/-- Claim C7 amended: over the empty Filtered View every aggregation returns an
empty result and all four interactive visualisation steps render their
placeholder without raising; only the unguarded batch word-cloud step raises
on an empty record set. -/
theorem empty_view_safe (n : Nat) :
    year_counts [] = [] ∧
    top_journals [] n = [] ∧
    word_frequencies [] = [] ∧
    appVizYear [] = Render.placeholder "No valid year values available for plotting." ∧
    appVizJournals [] = Render.placeholder "No journal information available to display." ∧
    appVizWordcloud [] =
      Except.ok (Render.placeholder "No title text available to generate a word cloud.") ∧
    appVizSources [] = Render.placeholder "No source_x column available in this dataset sample." := by
  refine ⟨rfl, ?_, rfl, rfl, rfl, rfl, rfl⟩
  show (sortedJournalCounts []).take n = []
  rw [show sortedJournalCounts [] = [] from rfl]
  exact List.take_nil

/-- Claim C7 amended witness: the empty-view guarantees at `n = 10`. -/
theorem empty_view_safe_witness :
    year_counts [] = [] ∧ top_journals [] 10 = [] :=
  ⟨(empty_view_safe 10).1, (empty_view_safe 10).2.1⟩

/-- Claim C9 counterexample: a zero-row sample whose columns lack `source_x` makes
the batch run fail earlier — at the word-cloud step, with only the first two
artifacts written — not at the source-distribution step after three
artifacts. -/
theorem batch_empty_sample_stops_before_source :
    batchRun ["title", "abstract", "publish_time", "journal"] [] =
      (["plots/publications_by_year.png", "plots/top_journals.png"],
        Except.error "ValueError: We need at least 1 word to plot a word cloud, got 0.") :=
  rfl

/-- Claim C9 amended: for a sample whose columns include `journal` but not
`source_x` and whose cleaned records yield at least one word-cloud token, the
batch run fails at the source-distribution step after the first three image
artifacts have been written, producing partial output. -/
theorem batch_missing_source_partial_output (cols : List String) (recs : List CleanRec)
    (hj : cols.contains "journal" = true) (hs : cols.contains "source_x" = false)
    (hw : (wcTokens (allTitles recs)).isEmpty = false) :
    batchRun cols recs =
      (["plots/publications_by_year.png", "plots/top_journals.png",
        "plots/wordcloud_titles.png"],
        Except.error "KeyError: source_x") := by
  have hj2 : "journal" ∈ cols := by simpa using hj
  have hs2 : "source_x" ∉ cols := by simpa using hs
  simp [batchRun, wcGenerate, hw, hj2, hs2]

/-- Columns of the concrete C9 witness sample. -/
def c9cols : List String := ["title", "abstract", "publish_time", "journal"]

/-- Records of the concrete C9 witness sample. -/
def c9recs : List CleanRec :=
  [{ title := "covid study", abstract := "No abstract available",
     abstract_word_count := 3, publish_time := none, year := some 2020,
     journal := some "J", source_x := none }]

/-- Claim C9 amended witness at the concrete sample. -/
theorem batch_missing_source_partial_output_witness :
    c9cols.contains "journal" = true ∧ c9cols.contains "source_x" = false ∧
    (wcTokens (allTitles c9recs)).isEmpty = false ∧
    batchRun c9cols c9recs =
      (["plots/publications_by_year.png", "plots/top_journals.png",
        "plots/wordcloud_titles.png"], Except.error "KeyError: source_x") :=
  ⟨by decide, by decide, by decide,
    batch_missing_source_partial_output c9cols c9recs (by decide) (by decide) (by decide)⟩

/-- Claim C8: a session of filter interactions never changes the canonical record
set, and every view is recomputed fresh from that unchanged set: the view
obtained for a spec after any interaction history equals the filter of the
original canonical set by that spec. -/
theorem filter_no_side_effects (s : AppState) (specs : List FilterSpec) :
    (applySpecs s specs).canonical = s.canonical ∧
    ∀ spec : FilterSpec,
      (applySpec (applySpecs s specs) spec).view = df_filtered s.canonical spec := by
  refine ⟨applySpecs_canonical specs s, ?_⟩
  intro spec
  show df_filtered (applySpecs s specs).canonical spec = df_filtered s.canonical spec
  rw [applySpecs_canonical specs s]

/-- Claim C8 witness: after a concrete interaction the canonical set of a
concrete session state is untouched. -/
theorem filter_no_side_effects_witness :
    (applySpecs (AppState.mk [c1recA] []) [FilterSpec.mk 2019 2022 []]).canonical = [c1recA] :=
  (filter_no_side_effects (AppState.mk [c1recA] []) [FilterSpec.mk 2019 2022 []]).1

/-- Claim C10: when the loaded sample has no `publish_time` column, the interactive
cleaner nulls `year` on every record, and the always-applied year-range
filter therefore empties every filtered view, whatever the spec. -/
theorem no_publish_time_empty_view (f : RawFrame)
    (h : f.hasPublishTime = false) :
    (∀ r ∈ load_data f, r.year = none) ∧
    ∀ spec : FilterSpec, df_filtered (load_data f) spec = [] := by
  have hy : ∀ r ∈ load_data f, CleanRec.year r = none := by
    intro r hr
    rcases List.mem_map.mp hr with ⟨a, _, rfl⟩
    simp [cleanRecord, h]
  refine ⟨hy, ?_⟩
  intro spec
  rw [df_filtered_eq_filter]
  refine List.filter_eq_nil_iff.mpr ?_
  intro r hr
  have := hy r hr
  simp [specPass, yearBetween, this]

/-- Claim C10 witness: a concrete one-row frame lacking `publish_time` yields an
empty view for a concrete spec. -/
theorem no_publish_time_empty_view_witness :
    (RawFrame.mk false [⟨some "T", some "A", some "2020-01-01", some "J", none⟩]).hasPublishTime
        = false ∧
    df_filtered (load_data (RawFrame.mk false
        [⟨some "T", some "A", some "2020-01-01", some "J", none⟩])) ⟨2019, 2022, []⟩ = [] :=
  ⟨rfl,
    (no_publish_time_empty_view
        (RawFrame.mk false [⟨some "T", some "A", some "2020-01-01", some "J", none⟩]) rfl).2
      ⟨2019, 2022, []⟩⟩

end Cord19
